import Mathlib

/-!
Verification of the DeepseekV2 flash-inference modeling code
(`server/text_generation_server/models/custom_modeling/flash_deepseek_v2_modeling.py`
and `server/text_generation_server/models/flash_deepseek_v2.py`).

The development shallowly embeds the parts of the code the claims are about:

* the per-token expert-gating mathematics of `DenseMoE.forward`
  (softmax output → top-k masking → optional L-p renormalization),
  modelled over an arbitrary linear ordered field for the order/sum
  reasoning and over `ℝ` for the p-norm;
* the generic (non-fused) path of `DeepseekV2MLP.forward` and its
  activation-selection logic;
* the feed-forward variant selection of `DeepseekV2Layer.__init__`;
* the construction-time sharding guards (`DeepseekV2Attention.__init__`,
  `_load_experts`);
* the `tie_word_embeddings` check of `DeepseekV2Config.__init__`,
  together with a minimal model of Python keyword-argument binding;
* a minimal model of Python instance-attribute resolution (an attribute
  read on `self` succeeds iff `__init__` assigned that attribute), used
  to settle the claims about forward methods that reference attributes
  never assigned by the corresponding `__init__`;
* the cache parameters `FlashDeepseekV2.__init__` hands to the serving
  layer.
-/

/-! ## DenseMoE gating (`DenseMoE.forward`, modeling file lines 555-599)

`weights = softmax(gate_logits)` is a per-token row of expert weights;
all tensor operations involved (`topk(..., dim=1)`, `scatter_(1, ..., 0)`,
`norm(..., dim=-1)`) act row by row, so the model works on one row
`w : List α`.  `torch.topk(weights, num_experts - top_k, largest=False)`
returns the `num_experts - top_k` lowest entries; it is modelled by a
stable sort of the indexed entries by value. -/

variable {α : Type} [LinearOrderedField α]

/-- The indexed entries of a weight row, sorted by ascending value
(model of the value order used by `torch.topk(..., largest=False)`). -/
def sortedPairs (w : List α) : List (Nat × α) :=
  List.insertionSort (fun p q => p.2 ≤ q.2) w.enum

/-- Indices of the `m` lowest-scoring entries: the tensor
`not_selected_experts` of `DenseMoE.forward` (lines 570-576) with
`m = num_experts - top_k`. -/
def lowestIdx (w : List α) (m : Nat) : List Nat :=
  ((sortedPairs w).take m).map Prod.fst

/-- The row after `weights.scatter_(1, not_selected_experts, 0)`
(line 578): entries at the `m` lowest-scoring indices are set to zero,
all other entries survive unchanged. -/
def maskLowest (w : List α) (m : Nat) : List α :=
  w.enum.map (fun p => if p.1 ∈ lowestIdx w m then 0 else p.2)

/-- The weight row ascending by value. -/
def sortAsc (w : List α) : List α := List.insertionSort (· ≤ ·) w

/-- The weight row descending by value. -/
def sortDesc (w : List α) : List α := List.insertionSort (· ≥ ·) w

/-- Sum of the `k` largest entries of the row: the total weight
`torch.topk(all_probs, top_k)` (the top-`k` softmax probabilities)
would select. -/
def topkSum (w : List α) (k : Nat) : α := ((sortDesc w).take k).sum

/-- The per-row gate weights after the masking step of
`DenseMoE.forward`: the guard `if self.top_k < self.num_experts`
(line 569) masks the `num_experts - top_k` lowest entries, and
otherwise leaves the row untouched.  Here `w` is the softmax row, so
`w.length` is `num_experts`. -/
def denseMoEGate (w : List α) (k : Nat) : List α :=
  if k < w.length then maskLowest w (w.length - k) else w

/-- Number of entries zeroed by the masking step (0 when the guard
`top_k < num_experts` is false and the scatter never runs). -/
def maskedCount (w : List α) (k : Nat) : Nat :=
  if k < w.length then (lowestIdx w (w.length - k)).length else 0

/-- Sum of `p`-th powers of absolute values: `torch.norm(w, p)` before
the `1/p`-th root. -/
def pNormPow (w : List ℝ) (p : Nat) : ℝ := (w.map (fun x => |x| ^ p)).sum

/-- The L-`p` norm `torch.norm(w, p=moe_normalize_expert_weights, dim=-1)`
used by the renormalization step (lines 581-584). -/
noncomputable def pNorm (w : List ℝ) (p : Nat) : ℝ :=
  (pNormPow w p) ^ ((p : ℝ)⁻¹)

/-- The renormalization `weights = weights / torch.norm(weights, p, dim=-1,
keepdim=True)` of `DenseMoE.forward` (lines 581-584), per row. -/
noncomputable def renormalize (w : List ℝ) (p : Nat) : List ℝ :=
  w.map (fun x => x / pNorm w p)

instance : IsTotal (Nat × α) (fun p q => p.2 ≤ q.2) :=
  ⟨fun a b => le_total a.2 b.2⟩

instance : IsTrans (Nat × α) (fun p q => p.2 ≤ q.2) :=
  ⟨fun _ _ _ h1 h2 => le_trans h1 h2⟩

/-! ## DeepseekV2MLP (`DeepseekV2MLP`, modeling file lines 371-430) -/

/-- How the gelu approximation is chosen by the activation constructor
(lines 375-386): `approximate="tanh"` vs `approximate="none"`. -/
inductive GeluApprox where
  | tanhApprox
  | exactGelu
deriving DecidableEq

/-- Which activation `DeepseekV2MLP.__init__` installs for a given
`config.hidden_act` name: the built-in torch gelu (with an approximation
mode) or a lookup in the `ACT2FN` table. -/
inductive ActSelection where
  | geluBuiltin (approx : GeluApprox)
  | tableLookup (name : String)
deriving DecidableEq

/-- Python substring containment `pat in s` for strings. -/
def containsStr (s pat : String) : Bool :=
  s.toList.tails.any (fun t => pat.toList.isPrefixOf t)

/-- The activation selection of `DeepseekV2MLP.__init__` (lines 375-386):
`ACT2FN[hidden_act] if "gelu" not in hidden_act else gelu(approximate=
"tanh" if hidden_act in ["gelu_fast", "gelu_pytorch_tanh"] else "none")`. -/
def selectActivation (name : String) : ActSelection :=
  if containsStr name "gelu" then
    ActSelection.geluBuiltin
      (if name = "gelu_fast" ∨ name = "gelu_pytorch_tanh" then
        GeluApprox.tanhApprox
      else GeluApprox.exactGelu)
  else ActSelection.tableLookup name

/-- The fused gate/up projection built by
`TensorParallelColumnLinear.load_multi(..., [gate_proj, up_proj], dim=0)`:
per token, the gate rows are followed by the up rows. -/
def mlpGateUp (gateProj upProj : List α → List α) (x : List α) : List α :=
  gateProj x ++ upProj x

/-- The generic (non-fused) path of `DeepseekV2MLP.forward`
(lines 425-430): `gate_up_states = gate_up_proj(x)`, split by
`view(-1, 2, intermediate_size)` into the gate half and the up half,
then `down_proj(act(gate_up_states[:, 0]) * gate_up_states[:, 1])`.
The call writes no attribute of `self`; it is a pure function of `x`
and of the weights fixed at construction. -/
def mlpForward (I : Nat) (act : α → α) (gateProj upProj downProj : List α → List α)
    (x : List α) : List α :=
  downProj (List.zipWith (fun a b => act a * b)
    ((mlpGateUp gateProj upProj x).take I) ((mlpGateUp gateProj upProj x).drop I))

/-! ## Feed-forward variant selection (`DeepseekV2Layer.__init__`, lines 613-623) -/

/-- The three feed-forward sub-modules a layer can be built with. -/
inductive FeedForwardKind where
  | blockSparseMoE
  | denseMoE
  | denseMLP
deriving DecidableEq

/-- The selection made once in `DeepseekV2Layer.__init__` (lines 613-623):
`if config.n_routed_experts is not None and layer_id >=
config.first_k_dense_replace and layer_id % config.moe_layer_freq == 0`
then `BlockSparseMoE if config.quantize is None else DenseMoE`, else
`DeepseekV2MLP`.  The choice is stored in `self.mlp` and the condition is
never re-evaluated after construction. -/
def selectFeedForward (nRoutedExperts : Option Nat) (firstKDenseReplace moeLayerFreq : Nat)
    (quantize : Option String) (layerId : Nat) : FeedForwardKind :=
  if nRoutedExperts ≠ none ∧ firstKDenseReplace ≤ layerId ∧ layerId % moeLayerFreq = 0 then
    if quantize = none then FeedForwardKind.blockSparseMoE else FeedForwardKind.denseMoE
  else FeedForwardKind.denseMLP

/-! ## Construction-time sharding guards -/

/-- The guard of `DeepseekV2Attention.__init__` (lines 263-268): a
`ValueError` is raised iff `num_attention_heads` is not divisible by the
process-group size, before any forward call can happen. -/
def attentionInitRaises (numAttentionHeads worldSize : Nat) : Bool :=
  numAttentionHeads % worldSize != 0

/-- The assert guard of `_load_experts` (lines 175-177): the condition the
code actually tests is `config.hidden_size % world_size == 0`, although
the dimension being split is `config.moe_intermediate_size` (and the
assert message names `moe_intermediate_size`). -/
def loadExpertsGuard (hiddenSize worldSize : Nat) : Bool :=
  hiddenSize % worldSize == 0

/-- The per-shard block size of `_load_experts` (lines 179-180): the
dimension actually split across shards is `moe_intermediate_size`. -/
def loadExpertsBlockSize (moeIntermediateSize worldSize : Nat) : Nat :=
  moeIntermediateSize / worldSize

/-! ## DeepseekV2Config `tie_word_embeddings` check (lines 51-153)

`DeepseekV2Config.__init__` declares `tie_word_embeddings=False` as a named
parameter (line 88) and later runs
`tie_word_embeddings = kwargs.pop("tie_word_embeddings", False)` followed by
`if tie_word_embeddings: raise ValueError(...)` (lines 136-140).  Python
binds a keyword argument whose name matches a declared parameter to that
parameter; `**kwargs` only collects keyword arguments whose names match no
declared parameter. -/

/-- The parameter names declared by `DeepseekV2Config.__init__`
(lines 52-92). -/
def deepseekV2ConfigDeclaredParams : List String :=
  ["vocab_size", "hidden_size", "intermediate_size", "moe_intermediate_size",
   "num_hidden_layers", "num_attention_heads", "num_key_value_heads",
   "n_shared_experts", "n_routed_experts", "ep_size", "routed_scaling_factor",
   "kv_lora_rank", "q_lora_rank", "qk_rope_head_dim", "v_head_dim",
   "qk_nope_head_dim", "topk_method", "n_group", "topk_group",
   "num_experts_per_tok", "moe_layer_freq", "first_k_dense_replace",
   "norm_topk_prob", "scoring_func", "aux_loss_alpha", "seq_aux",
   "hidden_act", "max_position_embeddings", "initializer_range",
   "rms_norm_eps", "use_cache", "pad_token_id", "bos_token_id",
   "eos_token_id", "pretraining_tp", "tie_word_embeddings", "rope_theta",
   "rope_scaling", "attention_bias", "attention_dropout"]

/-- The `**kwargs` dictionary `DeepseekV2Config.__init__` receives for a
given set of keyword arguments: only those whose names match no declared
parameter. -/
def configKwargs (passed : List (String × Bool)) : List (String × Bool) :=
  passed.filter (fun kv => !(deepseekV2ConfigDeclaredParams.contains kv.1))

/-- The value of `kwargs.pop("tie_word_embeddings", False)` (line 136)
for a given set of keyword arguments. -/
def poppedTieWordEmbeddings (passed : List (String × Bool)) : Bool :=
  ((configKwargs passed).lookup "tie_word_embeddings").getD false

/-- Whether `DeepseekV2Config.__init__` raises the
`tie_word_embeddings is not supported` ValueError (lines 137-140) for a
given set of keyword arguments. -/
def deepseekV2ConfigRaisesTie (passed : List (String × Bool)) : Bool :=
  poppedTieWordEmbeddings passed

/-! ## Python attribute resolution for the forward methods

A read of `self.a` succeeds iff `__init__` assigned `self.a`; otherwise
Python raises `AttributeError` at the first such read.  For each class the
list of attributes its `__init__` assigns to `self` is transcribed from the
source, and for each forward method the list of attributes it reads from
`self`, in order of first textual use. -/

/-- First attribute a method reads that the constructor never assigned:
the attribute whose read raises `AttributeError` (or `none` if every read
resolves). -/
def firstMissingAttr (uses defined : List String) : Option String :=
  uses.find? (fun a => !(defined.contains a))

/-- Attributes assigned to `self` by `DeepseekV2Attention.__init__`
(lines 243-307). -/
def deepseekV2AttentionInitAttrs : List String :=
  ["num_heads", "hidden_size", "head_size", "rotary_emb", "softmax_scale",
   "num_key_value_heads", "query", "kv_a_proj_with_mqa", "kv_a_layernorm",
   "kv_b_proj", "o_proj", "num_groups", "kv_head_mapping"]

/-- Attributes `DeepseekV2Attention.forward` (lines 309-368) reads from
`self`, in order of first use: `self.query_key_value(hidden_states)` at
line 321 comes first, before any rotary application, cache write or
attention kernel call. -/
def deepseekV2AttentionForwardAttrs : List String :=
  ["query_key_value", "clip_qkv", "head_size", "num_heads",
   "num_key_value_heads", "rotary_emb", "kv_head_mapping",
   "softmax_scale", "o_proj"]

/-- Attributes assigned to `self` by `BlockSparseMoE.__init__`
(lines 457-482); `shared_experts` is assigned only when
`config.n_shared_experts is not None`, and is included here (the larger
attribute set). -/
def blockSparseMoEInitAttrs : List String :=
  ["hidden_dim", "ffn_dim", "n_experts", "top_k", "routed_scaling_factor",
   "experts", "gate", "shared_experts", "process_group"]

/-- Attributes `BlockSparseMoE.forward` (lines 484-501) reads from `self`,
in order of first use. -/
def blockSparseMoEForwardAttrs : List String :=
  ["gate", "wv1", "w2", "top_k", "moe_normalize_expert_weights",
   "process_group"]

/-- Attributes assigned to `self` by `DeepseekV2Layer.__init__`
(lines 602-632). -/
def deepseekV2LayerInitAttrs : List String :=
  ["self_attn", "mlp", "input_layernorm", "post_attention_layernorm"]

/-- Attributes `DeepseekV2Layer.forward` (lines 634-670) reads from
`self`, in order of first use. -/
def deepseekV2LayerForwardAttrs : List String :=
  ["input_layernorm", "self_attn", "post_attention_layernorm", "moe"]

/-- The attribute chain `DeepseekV2Model.forward` walks on
`self.layers[0]` at line 714 to fetch the rotary embedding before the
layer loop: `.attn.self_attn.rotary_emb`. -/
def deepseekV2ModelRotaryAccessPath : List String :=
  ["attn", "self_attn", "rotary_emb"]

/-! ## Cache parameters handed to the serving layer
(`FlashDeepseekV2.__init__`, `flash_deepseek_v2.py` lines 66-78) -/

/-- The shape data of a constructed `DeepseekV2Model` the serving wrapper
reads: `len(model.model.layers)` and `model.model.num_key_value_heads`. -/
structure DeepseekModelShape where
  numLayers : Nat
  numKeyValueHeads : Nat
deriving DecidableEq

/-- The cache geometry `FlashCausalLM.__init__` receives. -/
structure KVCacheParams where
  numLayers : Nat
  numKVHeads : Nat
  headSize : Nat
deriving DecidableEq

/-- The arguments `FlashDeepseekV2.__init__` passes to the serving layer
(lines 66-78): `num_layers=len(model.model.layers)`,
`num_kv_heads=model.model.num_key_value_heads`, and `head_size=256`
(the source comment: the cache head size is always 256 due to padding).
The configured per-head dimensions `qk_nope_head_dim`, `qk_rope_head_dim`
and `v_head_dim` are in scope in the configuration but do not enter the
cache parameters. -/
def flashDeepseekV2CacheParams (qkNopeHeadDim qkRopeHeadDim vHeadDim : Nat)
    (m : DeepseekModelShape) : KVCacheParams :=
  { numLayers := m.numLayers
    numKVHeads := m.numKeyValueHeads
    headSize := 256 }

/-! ## Helper lemmas for the gating model -/

theorem sortedPairs_map_snd (w : List α) : (sortedPairs w).map Prod.snd = sortAsc w := by
  apply List.eq_of_perm_of_sorted (r := (· ≤ ·))
  · exact (((List.perm_insertionSort _ w.enum).map Prod.snd).trans
      (by rw [List.enum_map_snd])).trans (List.perm_insertionSort _ w).symm
  · exact List.Pairwise.map Prod.snd (fun a b h => h)
      (List.sorted_insertionSort _ w.enum)
  · exact List.sorted_insertionSort _ w

theorem maskLowest_sum (w : List α) (m : Nat) :
    (maskLowest w m).sum = ((sortAsc w).drop m).sum := by
  have hperm : (sortedPairs w).Perm w.enum := List.perm_insertionSort _ _
  have hmask : (maskLowest w m).sum =
      ((sortedPairs w).map (fun p => if p.1 ∈ lowestIdx w m then 0 else p.2)).sum := by
    exact ((hperm.map _).sum_eq).symm
  have hnd : ((sortedPairs w).map Prod.fst).Nodup := by
    rw [(hperm.map Prod.fst).nodup_iff, List.enum_map_fst]
    exact List.nodup_range _
  have hsplit : (sortedPairs w).map Prod.fst =
      ((sortedPairs w).take m).map Prod.fst ++ ((sortedPairs w).drop m).map Prod.fst := by
    rw [List.map_take, List.map_drop, List.take_append_drop]
  rw [hsplit] at hnd
  have hdisj := (List.nodup_append.mp hnd).2.2
  rw [hmask]
  conv_lhs => rw [← List.take_append_drop m (sortedPairs w)]
  rw [List.map_append, List.sum_append]
  have h0 : (((sortedPairs w).take m).map
      (fun p => if p.1 ∈ lowestIdx w m then 0 else p.2)).sum = (0:α) := by
    apply List.sum_eq_zero
    intro x hx
    rcases List.mem_map.mp hx with ⟨p, hp, rfl⟩
    have : p.1 ∈ lowestIdx w m := List.mem_map_of_mem Prod.fst hp
    simp [this]
  have h1 : ((sortedPairs w).drop m).map
      (fun p => if p.1 ∈ lowestIdx w m then 0 else p.2) =
      ((sortedPairs w).drop m).map Prod.snd := by
    apply List.map_congr_left
    intro p hp
    have hnot : p.1 ∉ lowestIdx w m := by
      intro hmem
      exact hdisj hmem (List.mem_map_of_mem Prod.fst hp)
    simp [hnot]
  rw [h0, h1, List.map_drop, sortedPairs_map_snd, zero_add]

theorem sortDesc_eq_reverse (w : List α) : sortDesc w = (sortAsc w).reverse := by
  have hs : List.Sorted (· ≤ ·) (sortAsc w) := List.sorted_insertionSort _ w
  apply List.eq_of_perm_of_sorted (r := ((· ≥ ·) : α → α → Prop))
  · exact (List.perm_insertionSort _ w).trans
      ((List.perm_insertionSort _ w).symm.trans (sortAsc w).reverse_perm.symm)
  · exact List.sorted_insertionSort _ w
  · rw [List.Sorted, List.pairwise_reverse]
    exact hs.imp (fun h => h)

theorem drop_sortAsc_sum (w : List α) (m : Nat) :
    ((sortAsc w).drop m).sum = topkSum w (w.length - m) := by
  have hlen : (sortAsc w).length = w.length := (List.perm_insertionSort _ w).length_eq
  rw [topkSum, sortDesc_eq_reverse, ← hlen, ← List.reverse_drop, List.sum_reverse]

theorem denseMoEGate_sum (w : List α) (k : Nat) (hk : k < w.length) :
    (denseMoEGate w k).sum = topkSum w k := by
  rw [denseMoEGate, if_pos hk, maskLowest_sum, drop_sortAsc_sum,
    Nat.sub_sub_self (le_of_lt hk)]

theorem maskLowest_length (w : List α) (m : Nat) :
    (maskLowest w m).length = w.length := by
  rw [maskLowest, List.length_map, List.enum_length]

theorem denseMoEGate_length (w : List α) (k : Nat) :
    (denseMoEGate w k).length = w.length := by
  rw [denseMoEGate]
  by_cases h : k < w.length
  · rw [if_pos h, maskLowest_length]
  · rw [if_neg h]

theorem pNormPow_nonneg (w : List ℝ) (p : Nat) : 0 ≤ pNormPow w p := by
  apply List.sum_nonneg
  intro x hx
  rcases List.mem_map.mp hx with ⟨a, _, rfl⟩
  positivity

theorem pNorm_renormalize (w : List ℝ) (p : Nat) (hp : 1 ≤ p)
    (hN : pNorm w p ≠ 0) : pNorm (renormalize w p) p = 1 := by
  have hpc : ((p : ℝ)) ≠ 0 := Nat.cast_ne_zero.mpr (by omega)
  have h : pNormPow w p ≠ 0 := by
    intro h0
    exact hN (by rw [pNorm, h0, Real.zero_rpow (inv_ne_zero hpc)])
  have hS0 : 0 ≤ pNormPow w p := pNormPow_nonneg w p
  have hSpos : 0 < pNormPow w p := lt_of_le_of_ne hS0 (Ne.symm h)
  have hNpos : 0 < pNorm w p := Real.rpow_pos_of_pos hSpos _
  have hNp : (pNorm w p) ^ p = pNormPow w p := by
    rw [pNorm, ← Real.rpow_natCast ((pNormPow w p) ^ ((p : ℝ)⁻¹)) p,
      ← Real.rpow_mul hS0, inv_mul_cancel₀ hpc, Real.rpow_one]
  have hkey : pNormPow (renormalize w p) p = 1 := by
    rw [pNormPow, renormalize, List.map_map]
    have hcongr : ∀ x ∈ w, ((fun x => |x| ^ p) ∘ fun x => x / pNorm w p) x
        = |x| ^ p * ((pNorm w p) ^ p)⁻¹ := by
      intro x _
      simp only [Function.comp]
      rw [abs_div, div_pow, abs_of_pos hNpos, div_eq_mul_inv]
    rw [List.map_congr_left hcongr, List.sum_map_mul_right, ← pNormPow, hNp,
      mul_inv_cancel₀ h]
  rw [pNorm, hkey, Real.one_rpow]

/-! ## Claim theorems -/

/-- C2: for every token row of `DenseMoE.forward` with `top_k < num_experts`,
the masking step zeroes the `num_experts - top_k` lowest-scoring entries of
the softmax row (keeping one entry per expert), so the post-mask,
pre-renormalization sum equals the sum of the row's top-`top_k` softmax
probabilities; and when renormalization is enabled (integer order `p ≥ 1`)
and the L-`p` norm of the surviving row is nonzero, dividing by that norm
yields a row of L-`p` norm exactly 1. -/
theorem denseMoE_mask_sum_and_renorm (w : List ℝ) (k p : Nat) (hk : k < w.length)
    (hp : 1 ≤ p) (hn : pNorm (denseMoEGate w k) p ≠ 0) :
    (denseMoEGate w k).length = w.length ∧
    (denseMoEGate w k).sum = topkSum w k ∧
    pNorm (renormalize (denseMoEGate w k) p) p = 1 :=
  ⟨denseMoEGate_length w k, denseMoEGate_sum w k hk,
    pNorm_renormalize (denseMoEGate w k) p hp hn⟩

theorem denseMoE_mask_sum_and_renorm_witness :
    1 < ([(1:ℝ), 2]).length ∧ 1 ≤ 1 ∧ pNorm (denseMoEGate [(1:ℝ), 2] 1) 1 ≠ 0 ∧
    ((denseMoEGate [(1:ℝ), 2] 1).length = ([(1:ℝ), 2]).length ∧
     (denseMoEGate [(1:ℝ), 2] 1).sum = topkSum [(1:ℝ), 2] 1 ∧
     pNorm (renormalize (denseMoEGate [(1:ℝ), 2] 1) 1) 1 = 1) := by
  have hgate : denseMoEGate ([1, 2] : List ℝ) 1 = [0, 2] := by
    norm_num [denseMoEGate, maskLowest, lowestIdx, sortedPairs,
      List.insertionSort, List.orderedInsert, List.enum, List.enumFrom]
  have hn : pNorm (denseMoEGate [(1:ℝ), 2] 1) 1 ≠ 0 := by
    rw [hgate, pNorm]
    norm_num [pNormPow]
  exact ⟨by norm_num, le_refl 1, hn,
    denseMoE_mask_sum_and_renorm [(1:ℝ), 2] 1 1 (by norm_num) (le_refl 1) hn⟩

/-- C9: when `top_k = num_experts`, the guard `if self.top_k <
self.num_experts` of `DenseMoE.forward` is false, so no masking occurs:
the gate row is returned unchanged (every expert's softmax weight survives
to the combine) and the count of entries zeroed by the masking step is 0. -/
theorem denseMoE_no_mask_when_topk_eq (w : List α) (k : Nat) (h : k = w.length) :
    denseMoEGate w k = w ∧ maskedCount w k = 0 := by
  subst h
  refine ⟨?_, ?_⟩
  · rw [denseMoEGate, if_neg (lt_irrefl _)]
  · rw [maskedCount, if_neg (lt_irrefl _)]

theorem denseMoE_no_mask_when_topk_eq_witness :
    2 = ([(1:ℚ), 2]).length ∧
    (denseMoEGate [(1:ℚ), 2] 2 = [(1:ℚ), 2] ∧ maskedCount [(1:ℚ), 2] 2 = 0) :=
  ⟨rfl, denseMoE_no_mask_when_topk_eq [(1:ℚ), 2] 2 rfl⟩

/-- C6: on the generic (non-fused) path, `DeepseekV2MLP.forward` returns
`down_proj(activation(gate_proj(x)) * up_proj(x))` (the gate/up split of
the fused projection recovers exactly the two separate projections), and
the activation is selected by name at construction: gelu-family names use
the built-in gelu with the tanh approximation exactly when the name is
`gelu_fast` or `gelu_pytorch_tanh` and the exact form otherwise, and all
other names go through the `ACT2FN` table.  The forward call is a pure
function of its input and the constructed weights. -/
theorem deepseekV2MLP_forward_spec (I : Nat) (act : α → α)
    (gateProj upProj downProj : List α → List α) (x : List α) (name : String)
    (hI : (gateProj x).length = I) :
    mlpForward I act gateProj upProj downProj x
        = downProj (List.zipWith (· * ·) ((gateProj x).map act) (upProj x)) ∧
    (selectActivation name = ActSelection.geluBuiltin GeluApprox.tanhApprox ↔
      containsStr name "gelu" = true ∧
        (name = "gelu_fast" ∨ name = "gelu_pytorch_tanh")) ∧
    (selectActivation name = ActSelection.geluBuiltin GeluApprox.exactGelu ↔
      containsStr name "gelu" = true ∧
        ¬(name = "gelu_fast" ∨ name = "gelu_pytorch_tanh")) ∧
    (containsStr name "gelu" = false →
      selectActivation name = ActSelection.tableLookup name) := by
  refine ⟨?_, ?_, ?_, ?_⟩
  · rw [mlpForward, mlpGateUp, ← hI, List.take_left, List.drop_left,
      List.zipWith_map_left]
  · by_cases hg : containsStr name "gelu" <;>
      by_cases hn : name = "gelu_fast" ∨ name = "gelu_pytorch_tanh" <;>
      simp [selectActivation, hg, hn]
  · by_cases hg : containsStr name "gelu" <;>
      by_cases hn : name = "gelu_fast" ∨ name = "gelu_pytorch_tanh" <;>
      simp [selectActivation, hg, hn]
  · intro hg
    rw [selectActivation, hg]
    simp

theorem deepseekV2MLP_forward_spec_witness :
    (((fun l : List ℚ => l) [3]).length = 1) ∧
    (mlpForward 1 (fun a : ℚ => a) (fun l => l) (fun l => l) (fun l => l) [3]
        = (fun l : List ℚ => l)
            (List.zipWith (· * ·) (((fun l : List ℚ => l) [3]).map (fun a => a))
              ((fun l : List ℚ => l) [3])) ∧
     (selectActivation "gelu_fast" = ActSelection.geluBuiltin GeluApprox.tanhApprox ↔
       containsStr "gelu_fast" "gelu" = true ∧
         ("gelu_fast" = "gelu_fast" ∨ "gelu_fast" = "gelu_pytorch_tanh")) ∧
     (selectActivation "gelu_fast" = ActSelection.geluBuiltin GeluApprox.exactGelu ↔
       containsStr "gelu_fast" "gelu" = true ∧
         ¬("gelu_fast" = "gelu_fast" ∨ "gelu_fast" = "gelu_pytorch_tanh")) ∧
     (containsStr "gelu_fast" "gelu" = false →
       selectActivation "gelu_fast" = ActSelection.tableLookup "gelu_fast")) :=
  ⟨rfl, deepseekV2MLP_forward_spec 1 (fun a : ℚ => a) (fun l => l) (fun l => l)
    (fun l => l) [3] "gelu_fast" rfl⟩

/-- C5: the feed-forward sub-module of a layer is chosen once in
`DeepseekV2Layer.__init__` and stored in `self.mlp`, never re-evaluated at
call time; the choice is a MoE block iff `n_routed_experts` is set,
`layer_id >= first_k_dense_replace` and `layer_id % moe_layer_freq == 0`;
among MoE blocks the fused-batched `BlockSparseMoE` is chosen iff
`config.quantize is None`, the per-expert dense-loop `DenseMoE` otherwise;
all other layers get a dense `DeepseekV2MLP`. -/
theorem deepseekV2Layer_mlp_selection (nR : Option Nat) (fK mF : Nat)
    (q : Option String) (lid : Nat) :
    (selectFeedForward nR fK mF q lid = FeedForwardKind.blockSparseMoE ↔
      (nR ≠ none ∧ fK ≤ lid ∧ lid % mF = 0 ∧ q = none)) ∧
    (selectFeedForward nR fK mF q lid = FeedForwardKind.denseMoE ↔
      (nR ≠ none ∧ fK ≤ lid ∧ lid % mF = 0 ∧ q ≠ none)) ∧
    (selectFeedForward nR fK mF q lid = FeedForwardKind.denseMLP ↔
      ¬(nR ≠ none ∧ fK ≤ lid ∧ lid % mF = 0)) := by
  by_cases h1 : nR ≠ none ∧ fK ≤ lid ∧ lid % mF = 0 <;>
    by_cases h2 : q = none <;>
    simp [selectFeedForward, h1, h2]

/-- C1 (code bug): `DeepseekV2Attention.forward` cannot perform the claimed
low-rank pipeline: its first read of `self` is `self.query_key_value`
(line 321), an attribute `__init__` never assigns, so every call raises
`AttributeError` there — before any projection, rotary application, cache
write or attention kernel call — and the low-rank modules
`kv_a_proj_with_mqa`, `kv_a_layernorm`, `kv_b_proj` that `__init__` does
build are never referenced by `forward` at all. -/
theorem deepseekV2Attention_forward_missing_qkv :
    firstMissingAttr deepseekV2AttentionForwardAttrs deepseekV2AttentionInitAttrs
        = some "query_key_value" ∧
    "kv_a_proj_with_mqa" ∈ deepseekV2AttentionInitAttrs ∧
    "kv_a_layernorm" ∈ deepseekV2AttentionInitAttrs ∧
    "kv_b_proj" ∈ deepseekV2AttentionInitAttrs ∧
    "kv_a_proj_with_mqa" ∉ deepseekV2AttentionForwardAttrs ∧
    "kv_a_layernorm" ∉ deepseekV2AttentionForwardAttrs ∧
    "kv_b_proj" ∉ deepseekV2AttentionForwardAttrs := by decide

/-- C3 (code bug): both claimed shape-preserving paths crash instead of
returning: `BlockSparseMoE.forward` reads `self.wv1` (line 489), never
assigned by its `__init__` (which builds `self.experts`), and
`DeepseekV2Layer.forward` reads `self.moe` (line 668), never assigned by
its `__init__` (which stores the feed-forward block in `self.mlp`); each
call raises `AttributeError` at that read. -/
theorem moe_and_layer_forward_missing_attrs :
    firstMissingAttr blockSparseMoEForwardAttrs blockSparseMoEInitAttrs
        = some "wv1" ∧
    firstMissingAttr deepseekV2LayerForwardAttrs deepseekV2LayerInitAttrs
        = some "moe" ∧
    "mlp" ∈ deepseekV2LayerInitAttrs ∧
    "experts" ∈ blockSparseMoEInitAttrs := by decide

/-- C4 (code bug): `DeepseekV2Model.forward` fetches the rotary embedding
before the layer loop through `self.layers[0].attn.self_attn.rotary_emb`
(line 714), but a `DeepseekV2Layer` has no attribute `attn` (its
`__init__` assigns `self_attn`), so the cos/sin computation raises
`AttributeError` on every forward call, before the loop ever runs. -/
theorem deepseekV2Model_rotary_access_missing :
    deepseekV2ModelRotaryAccessPath.head? = some "attn" ∧
    "attn" ∉ deepseekV2LayerInitAttrs ∧
    "self_attn" ∈ deepseekV2LayerInitAttrs := by decide

/-- C7 (code bug): the attention-head guard behaves as claimed
(`__init__` raises exactly when `num_attention_heads` is not divisible by
the shard count), but the `_load_experts` assert tests
`hidden_size % world_size == 0` while the dimension it splits is
`moe_intermediate_size`: with `hidden_size = 8`, `world_size = 2` and
`moe_intermediate_size = 3` the guard passes even though the split
dimension is not divisible (the truncated per-shard blocks no longer
cover it), so construction does not fail there. -/
theorem load_experts_guard_misses_split_dim :
    attentionInitRaises 5 2 = true ∧
    attentionInitRaises 4 2 = false ∧
    loadExpertsGuard 8 2 = true ∧
    loadExpertsBlockSize 3 2 * 2 ≠ 3 := by decide

/-- C8 (code bug): the `tie_word_embeddings` ValueError of
`DeepseekV2Config.__init__` is unreachable: the name is a declared
parameter, so a caller's `tie_word_embeddings=True` binds to the parameter
and never reaches `**kwargs`; `kwargs.pop("tie_word_embeddings", False)`
therefore always yields the default `False` and the construction does not
raise even when tied embeddings are requested. -/
theorem config_tie_check_unreachable :
    "tie_word_embeddings" ∈ deepseekV2ConfigDeclaredParams ∧
    deepseekV2ConfigRaisesTie [("tie_word_embeddings", true)] = false ∧
    deepseekV2ConfigRaisesTie [] = false := by decide

/-- C10: for every successfully constructed model, the cache parameters
handed to the serving layer carry `head_size = 256` — a constant,
independent of the configured `qk_nope_head_dim`, `qk_rope_head_dim` and
`v_head_dim` — while `num_layers` and `num_kv_heads` are read off the
constructed model. -/
theorem flashDeepseekV2_cache_params_spec :
    ∀ (a b c a2 b2 c2 : Nat) (m : DeepseekModelShape),
      (flashDeepseekV2CacheParams a b c m).headSize = 256 ∧
      flashDeepseekV2CacheParams a b c m = flashDeepseekV2CacheParams a2 b2 c2 m ∧
      (flashDeepseekV2CacheParams a b c m).numLayers = m.numLayers ∧
      (flashDeepseekV2CacheParams a b c m).numKVHeads = m.numKeyValueHeads :=
  fun _ _ _ _ _ _ _ => ⟨rfl, rfl, rfl, rfl⟩
